import Mathlib

/-!
Shallow embedding of `src/run.py` (neat-to-wave-converter): a CSV statement
converter with one extraction adapter per input institution, a canonical
(date, amount, description) record model, an output writer, and orchestrator
flag validation.  Python rows (from `csv.DictReader`) are modelled as partial
maps from header strings to field strings; `datetime` values as explicit
(year, month, day, hour, minute, second) tuples with lexicographic order;
`decimal.Decimal` values as sign/coefficient/exponent triples following the
Python decimal semantics actually exercised by the script (parsing, quantize
with ROUND_HALF_UP, negation with the positive-zero rule, exact addition,
comparison with zero, and fixed-point printing).
-/

namespace NeatToWave

/-! ## Small string and number helpers -/

/-- Numeric value of a string of ASCII digits (most significant first). -/
def natOfDigits (s : String) : Nat :=
  s.data.foldl (fun a ch => 10 * a + (ch.toNat - 48)) 0

/-- Left-pad a string with zeros up to width `w`. -/
def zeroPad (w : Nat) (s : String) : String :=
  String.mk (List.replicate (w - s.length) '0') ++ s

/-- Decimal rendering of `n`, left-padded with zeros to width `w`. -/
def natPad (w n : Nat) : String :=
  zeroPad w (toString n)

/-- Split a character list at every occurrence of `sep` (empty pieces kept),
as `str.split(sep)` does for a one-character separator. -/
def splitOnChar (sep : Char) : List Char → List (List Char)
  | [] => [[]]
  | ch :: rest =>
    match splitOnChar sep rest with
    | [] => [[]]
    | cur :: parts => if ch = sep then [] :: cur :: parts else (ch :: cur) :: parts

/-- Split a string at every occurrence of the character `sep`. -/
def pySplit (s : String) (sep : Char) : List String :=
  (splitOnChar sep s.data).map String.mk

/-- Replace every occurrence of the character `old` by `new` in a list. -/
def replaceChar (old : Char) (new : List Char) : List Char → List Char
  | [] => []
  | ch :: rest =>
    if ch = old then new ++ replaceChar old new rest else ch :: replaceChar old new rest

/-- Python `s.replace(old, new)` for a one-character pattern `old`. -/
def pyReplaceChar (s : String) (old : Char) (new : String) : String :=
  String.mk (replaceChar old new.data s.data)

/-- Parse a digit string whose length lies in `[lo, hi]`; `none` otherwise. -/
def parseNatLen (s : String) (lo hi : Nat) : Option Nat :=
  if 1 ≤ lo ∧ lo ≤ s.length ∧ s.length ≤ hi ∧ s.data.all Char.isDigit then
    some (natOfDigits s)
  else
    none

/-- Characters treated as whitespace by Python `str.strip` (ASCII range). -/
def isPySpace (ch : Char) : Bool :=
  ch = ' ' || ch = '\t' || ch = '\n' || ch = '\r' || ch = Char.ofNat 11 || ch = Char.ofNat 12

/-- Python `str.strip()`: drop whitespace from both ends. -/
def pyStrip (s : String) : String :=
  String.mk (((s.data.dropWhile isPySpace).reverse.dropWhile isPySpace).reverse)

/-- Python `str.lower()` restricted to ASCII letters. -/
def pyLower (s : String) : String :=
  String.mk (s.data.map (fun ch => if 'A' ≤ ch ∧ ch ≤ 'Z' then Char.ofNat (ch.toNat + 32) else ch))

/-! ## datetime model -/

/-- A Python `datetime.datetime` value as produced by `strptime` in `run.py`
(microseconds are always zero there and are omitted). -/
structure DateTime where
  year : Nat
  month : Nat
  day : Nat
  hour : Nat
  minute : Nat
  second : Nat
deriving DecidableEq, Repr

/-- Python `datetime` comparison `a <= b`: lexicographic on the components. -/
def dtLe (a b : DateTime) : Bool :=
  if a.year ≠ b.year then decide (a.year < b.year)
  else if a.month ≠ b.month then decide (a.month < b.month)
  else if a.day ≠ b.day then decide (a.day < b.day)
  else if a.hour ≠ b.hour then decide (a.hour < b.hour)
  else if a.minute ≠ b.minute then decide (a.minute < b.minute)
  else decide (a.second ≤ b.second)

/-- Gregorian leap-year rule, as used by Python `datetime` validation. -/
def isLeapYear (y : Nat) : Bool :=
  y % 4 = 0 && (y % 100 != 0 || y % 400 = 0)

/-- Number of days of month `m` in year `y`. -/
def daysInMonth (y m : Nat) : Nat :=
  if m = 2 then (if isLeapYear y then 29 else 28)
  else if m = 4 ∨ m = 6 ∨ m = 9 ∨ m = 11 then 30
  else 31

/-- The `datetime(...)` constructor's validation: ranges as checked by Python
(year 1..9999, month 1..12, day within the month, time fields in range). -/
def mkDateTime (y mo d h mi s : Nat) : Option DateTime :=
  if 1 ≤ y ∧ y ≤ 9999 ∧ 1 ≤ mo ∧ mo ≤ 12 ∧ 1 ≤ d ∧ d ≤ daysInMonth y mo
      ∧ h ≤ 23 ∧ mi ≤ 59 ∧ s ≤ 59 then
    some ⟨y, mo, d, h, mi, s⟩
  else
    none

/-- Model of `datetime.strptime(s, "%Y-%m-%d %H:%M:%S")` on canonically
delimited inputs: a 4-digit year, 1-2 digit remaining fields, in-range values. -/
def strptimeYmdHMS (s : String) : Option DateTime :=
  match pySplit s ' ' with
  | [dpart, tpart] =>
    match pySplit dpart '-', pySplit tpart ':' with
    | [ys, mos, ds], [hs, mis, ss] => do
      let y ← parseNatLen ys 4 4
      let mo ← parseNatLen mos 1 2
      let d ← parseNatLen ds 1 2
      let h ← parseNatLen hs 1 2
      let mi ← parseNatLen mis 1 2
      let s2 ← parseNatLen ss 1 2
      mkDateTime y mo d h mi s2
    | _, _ => none
  | _ => none

/-- Model of `datetime.strptime(s, "%d<sep>%m<sep>%Y")` (date-only formats,
day first): used with `sep = '.'` for ErsteBank and `sep = '/'` for Starling. -/
def strptimeDMY (sep : Char) (s : String) : Option DateTime :=
  match pySplit s sep with
  | [ds, mos, ys] => do
    let d ← parseNatLen ds 1 2
    let mo ← parseNatLen mos 1 2
    let y ← parseNatLen ys 4 4
    mkDateTime y mo d 0 0 0
  | _ => none

/-- Model of `datetime.strptime(s, "%m/%d/%Y")` (Currenxie, month first). -/
def strptimeMDY (s : String) : Option DateTime :=
  match pySplit s '/' with
  | [mos, ds, ys] => do
    let mo ← parseNatLen mos 1 2
    let d ← parseNatLen ds 1 2
    let y ← parseNatLen ys 4 4
    mkDateTime y mo d 0 0 0
  | _ => none

/-- English month abbreviations recognized by `%b`, case-insensitively. -/
def monthAbbrevNum (s : String) : Option Nat :=
  (([("jan", 1), ("feb", 2), ("mar", 3), ("apr", 4), ("may", 5), ("jun", 6),
     ("jul", 7), ("aug", 8), ("sep", 9), ("oct", 10), ("nov", 11), ("dec", 12)]
    : List (String × Nat)).find? (fun p => p.1 = pyLower s)).map Prod.snd

/-- Model of `datetime.strptime(s, "%d %b, %Y")` (Payoneer). -/
def strptimeDbY (s : String) : Option DateTime :=
  match pySplit s ' ' with
  | [ds, bs, ys] =>
    if bs.data.getLast? = some ',' then do
      let d ← parseNatLen ds 1 2
      let mo ← monthAbbrevNum (String.mk bs.data.dropLast)
      let y ← parseNatLen ys 4 4
      mkDateTime y mo d 0 0 0
    else none
  | _ => none

/-- Python `c_dt.strftime("%Y-%m-%d")`: the zero-padded ISO calendar date,
discarding the time of day. -/
def strftimeYmd (dt : DateTime) : String :=
  natPad 4 dt.year ++ "-" ++ natPad 2 dt.month ++ "-" ++ natPad 2 dt.day

/-! ## decimal.Decimal model -/

/-- A finite Python `Decimal`: sign (`true` = negative), coefficient, and the
number of fractional digits (`exp` models a decimal exponent of `-exp`).
`⟨true, 0, 2⟩` is the negative zero `Decimal("-0.00")`. -/
structure PyDecimal where
  sign : Bool
  coeff : Nat
  exp : Nat
deriving DecidableEq, Repr

/-- Model of the `Decimal(string)` constructor on plain fixed-point literals:
an optional sign, digits, and at most one decimal point. -/
def parseDecimal (s : String) : Option PyDecimal :=
  let sg : Bool := match s.data with | '-' :: _ => true | _ => false
  let body : List Char :=
    match s.data with
    | '-' :: t => t
    | '+' :: t => t
    | t => t
  match splitOnChar '.' body with
  | [ip] =>
    if ip ≠ [] ∧ ip.all Char.isDigit then some ⟨sg, natOfDigits (String.mk ip), 0⟩ else none
  | [ip, fp] =>
    if (ip ≠ [] ∨ fp ≠ []) ∧ ip.all Char.isDigit ∧ fp.all Char.isDigit then
      some ⟨sg, natOfDigits (String.mk (ip ++ fp)), fp.length⟩
    else none
  | _ => none

/-- Model of `d.quantize(Decimal(".01"), ROUND_HALF_UP)`: round the magnitude
to two fractional digits, ties away from zero, keeping the sign. -/
def pyQuantize01HalfUp (d : PyDecimal) : PyDecimal :=
  if d.exp ≤ 2 then
    ⟨d.sign, d.coeff * 10 ^ (2 - d.exp), 2⟩
  else
    let den := 10 ^ (d.exp - 2)
    let q := d.coeff / den
    let r := d.coeff % den
    ⟨d.sign, if den ≤ 2 * r then q + 1 else q, 2⟩

/-- Model of Python `Decimal.__neg__` under the default context: flips the
sign, except that a zero operand yields a positive zero. -/
def pyNeg (d : PyDecimal) : PyDecimal :=
  if d.coeff = 0 then ⟨false, d.coeff, d.exp⟩ else ⟨!d.sign, d.coeff, d.exp⟩

/-- Model of `d > 0` on `Decimal` (a zero of either sign is not `> 0`). -/
def pyGtZero (d : PyDecimal) : Bool :=
  !d.sign && d.coeff != 0

/-- Model of exact `Decimal` addition: align exponents, add the signed
coefficients; an exactly zero sum gets a positive sign (default rounding). -/
def pyAdd (a b : PyDecimal) : PyDecimal :=
  let e := max a.exp b.exp
  let va : Int := (if a.sign then -(a.coeff : Int) else (a.coeff : Int)) * 10 ^ (e - a.exp)
  let vb : Int := (if b.sign then -(b.coeff : Int) else (b.coeff : Int)) * 10 ^ (e - b.exp)
  let sum := va + vb
  ⟨decide (sum < 0), sum.natAbs, e⟩

/-- Model of `str` on a finite `Decimal` in fixed-point form (the only form
arising in `run.py`): digits with a decimal point inserted `exp` places from
the right, and a leading minus sign when negative (also for negative zero). -/
def pyDecStr (d : PyDecimal) : String :=
  let digits := zeroPad (d.exp + 1) (toString d.coeff)
  let body :=
    if d.exp = 0 then digits
    else String.mk (digits.data.take (digits.length - d.exp)) ++ "." ++
      String.mk (digits.data.drop (digits.length - d.exp))
  if d.sign then "-" ++ body else body

/-- Rational value denoted by a `PyDecimal` (negative zero denotes `0`). -/
def decValQ (d : PyDecimal) : ℚ :=
  (if d.sign then -(d.coeff : ℚ) else (d.coeff : ℚ)) / 10 ^ d.exp

/-! ## Rows, records, and the extraction loop skeleton -/

/-- A `csv.DictReader` row: a partial map from header names to field values.
`none` models an absent key (a Python `KeyError` on access). -/
def Row : Type := String → Option String

/-- Build a concrete row from an association list of header/value pairs. -/
def mkRow (l : List (String × String)) : Row :=
  fun h => (l.find? (fun p => p.1 = h)).map Prod.snd

/-- The header-name constants `CSV_DATE_HEADER`, `CSV_AMOUNT_HEADER`,
`CSV_DESCRIPTION_HEADER` of `run.py`. -/
def CSV_DATE_HEADER : String := "date"

/-- Header-name constant for the amount column. -/
def CSV_AMOUNT_HEADER : String := "amount"

/-- Header-name constant for the description column. -/
def CSV_DESCRIPTION_HEADER : String := "description"

/-- The canonical record every adapter produces: the three-field dict
`{description, amount, date}` built in each `_extract_*_data` loop. -/
structure Record where
  date : String
  amount : String
  description : String
deriving DecidableEq, Repr

/-- Exceptions an extraction adapter can raise: `KeyError` on a missing
column, `ValueError` from `strptime` on a malformed date, `InvalidOperation`
from the `Decimal` constructor, and explicitly raised `ValueError`s. -/
inductive ExtractError where
  | keyError (key : String)
  | dateParseError (value : String)
  | decimalParseError (value : String)
  | valueError (msg : String)
deriving DecidableEq, Repr

/-- Outcome of one iteration of an extraction loop on one row: `continue`,
append one record, or raise. -/
inductive StepResult where
  | skip
  | emit (r : Record)
  | fail (e : ExtractError)
deriving DecidableEq, Repr

/-- The shared `for i, c in enumerate(content)` loop: process rows in order,
appending emitted records, aborting at the first raised exception. -/
def foldRows (step : Nat → Row → StepResult) : Nat → List Row → Except ExtractError (List Record)
  | _, [] => .ok []
  | i, c :: rest =>
    match step i c with
    | .skip => foldRows step (i + 1) rest
    | .emit r => Except.map (fun tail => r :: tail) (foldRows step (i + 1) rest)
    | .fail e => .error e

/-! ## Source adapters

Each `*Step` function is the body of the corresponding `for i, c in
enumerate(content)` loop in `run.py`, with dict subscripts, `strptime`,
`Decimal` operations and `raise` statements made explicit; the matching
`_extract_*_data` function is that loop folded over the row list. -/

/-- Loop body of `_extract_neat_data` (run.py lines 80-91). -/
def neatStep (start_datetime : DateTime) (c : Row) : StepResult :=
  match c "Transaction Date" with
  | none => .fail (.keyError "Transaction Date")
  | some ds =>
  match strptimeYmdHMS ds with
  | none => .fail (.dateParseError ds)
  | some c_dt =>
  if dtLe c_dt start_datetime then .skip
  else
  match c "Description" with
  | none => .fail (.keyError "Description")
  | some descr =>
  match c "Transaction Amount" with
  | none => .fail (.keyError "Transaction Amount")
  | some amt =>
  .emit { description := descr, amount := amt, date := strftimeYmd c_dt }

/-- Model of `_extract_neat_data` (run.py lines 75-92). -/
def _extract_neat_data (start_datetime : DateTime) (content : List Row) :
    Except ExtractError (List Record) :=
  foldRows (fun _ c => neatStep start_datetime c) 0 content

/-- Loop body of `_extract_airwallex_data` (run.py lines 103-121).
`AirwallexType(x)` raises `ValueError` unless `x` is one of the three
member values `"Deposit"`, `"Fee"`, `"Payout"`. -/
def airwallexStep (start_datetime : DateTime) (c : Row) : StepResult :=
  match c "Created At" with
  | none => .fail (.keyError "Created At")
  | some ds =>
  match strptimeYmdHMS ds with
  | none => .fail (.dateParseError ds)
  | some c_dt =>
  if dtLe c_dt start_datetime then .skip
  else
  match c "Type" with
  | none => .fail (.keyError "Type")
  | some ty =>
  if ty ≠ "Deposit" ∧ ty ≠ "Fee" ∧ ty ≠ "Payout" then
    .fail (.valueError (ty ++ " is not a valid AirwallexType"))
  else if ty = "Deposit" then
    match c "Remitter Name" with
    | none => .fail (.keyError "Remitter Name")
    | some remitter =>
    match c "Net Amount" with
    | none => .fail (.keyError "Net Amount")
    | some amt =>
    .emit { description := ty ++ " from " ++ remitter, amount := amt, date := strftimeYmd c_dt }
  else if ty = "Payout" then
    match c "Beneficiary Bank Account Name" with
    | none => .fail (.keyError "Beneficiary Bank Account Name")
    | some beneficiary =>
    match c "Net Amount" with
    | none => .fail (.keyError "Net Amount")
    | some amt =>
    .emit { description := ty ++ " to " ++ beneficiary, amount := amt, date := strftimeYmd c_dt }
  else
    match c "Net Amount" with
    | none => .fail (.keyError "Net Amount")
    | some amt =>
    .emit { description := ty, amount := amt, date := strftimeYmd c_dt }

/-- Model of `_extract_airwallex_data` (run.py lines 95-123). -/
def _extract_airwallex_data (start_datetime : DateTime) (content : List Row) :
    Except ExtractError (List Record) :=
  foldRows (fun _ c => airwallexStep start_datetime c) 0 content

/-- The continental-decimal normalization applied to ErsteBank amount cells:
`x.replace(".", "").replace(",", ".")` (run.py lines 141-142). -/
def continentalNormalize (s : String) : String :=
  pyReplaceChar (pyReplaceChar s '.' "") ',' "."

/-- Loop body of `_extract_erste_data` (run.py lines 134-156); the row index
`i` appears in the message of the explicitly raised `ValueError`. -/
def ersteStep (start_datetime : DateTime) (i : Nat) (c : Row) : StepResult :=
  match c "Datum izvršenja" with
  | none => .fail (.keyError "Datum izvršenja")
  | some ds =>
  match strptimeDMY '.' ds with
  | none => .fail (.dateParseError ds)
  | some c_dt =>
  if dtLe c_dt start_datetime then .skip
  else
  match c "Opis plaæanja, kurs" with
  | none => .fail (.keyError "Opis plaæanja, kurs")
  | some descr =>
  match c "Uplate" with
  | none => .fail (.keyError "Uplate")
  | some uplate =>
  match c "Isplate" with
  | none => .fail (.keyError "Isplate")
  | some isplate =>
  let inbound := continentalNormalize uplate
  let outbound := continentalNormalize isplate
  if inbound ≠ "" ∧ outbound ≠ "" then
    .fail (.valueError
      ("Both inbound and outbound transactions for " ++ descr ++ " (line " ++ toString i ++ ")"))
  else
  match c "Primalac" with
  | none => .fail (.keyError "Primalac")
  | some beneficiary =>
  if inbound ≠ "" then
    .emit { description := if beneficiary ≠ "" then descr ++ " from " ++ beneficiary else descr,
            amount := inbound, date := strftimeYmd c_dt }
  else
    .emit { description := if beneficiary ≠ "" then descr ++ " to " ++ beneficiary else descr,
            amount := "-" ++ outbound, date := strftimeYmd c_dt }

/-- Model of `_extract_erste_data` (run.py lines 126-158). -/
def _extract_erste_data (start_datetime : DateTime) (content : List Row) :
    Except ExtractError (List Record) :=
  foldRows (ersteStep start_datetime) 0 content

/-- Loop body of `_extract_revolut_data` (run.py lines 168-188): the `State`
filter runs before the `Completed Date` is parsed; in reimbursement mode
rows with positive amount are skipped and the amount is re-derived as
`str(-Decimal(x).quantize(Decimal(".01"), ROUND_HALF_UP))`. -/
def revolutStep (start_datetime : DateTime) (is_reimbursement : Bool) (c : Row) : StepResult :=
  match c "State" with
  | none => .fail (.keyError "State")
  | some st =>
  if st ≠ "COMPLETED" then .skip
  else
  match c "Completed Date" with
  | none => .fail (.keyError "Completed Date")
  | some ds =>
  match strptimeYmdHMS ds with
  | none => .fail (.dateParseError ds)
  | some c_dt =>
  if dtLe c_dt start_datetime then .skip
  else
  match c "Description" with
  | none => .fail (.keyError "Description")
  | some rawDescr =>
  let descr := pyReplaceChar rawDescr ',' ""
  match c "Amount" with
  | none => .fail (.keyError "Amount")
  | some amtS =>
  if is_reimbursement then
    match parseDecimal amtS with
    | none => .fail (.decimalParseError amtS)
    | some amtD =>
    if pyGtZero amtD then .skip
    else
      .emit { description := descr,
              amount := pyDecStr (pyNeg (pyQuantize01HalfUp amtD)),
              date := strftimeYmd c_dt }
  else
    .emit { description := descr, amount := amtS, date := strftimeYmd c_dt }

/-- Model of `_extract_revolut_data` (run.py lines 161-190). -/
def _extract_revolut_data (start_datetime : DateTime) (content : List Row)
    (is_reimbursement : Bool) : Except ExtractError (List Record) :=
  foldRows (fun _ c => revolutStep start_datetime is_reimbursement c) 0 content

/-- Loop body of `_extract_starling_data` (run.py lines 200-222). -/
def starlingStep (start_datetime : DateTime) (is_reimbursement : Bool) (c : Row) : StepResult :=
  match c "Date" with
  | none => .fail (.keyError "Date")
  | some ds =>
  match strptimeDMY '/' ds with
  | none => .fail (.dateParseError ds)
  | some c_dt =>
  if dtLe c_dt start_datetime then .skip
  else
  match c "Counter Party" with
  | none => .fail (.keyError "Counter Party")
  | some rawCp =>
  match c "Reference" with
  | none => .fail (.keyError "Reference")
  | some rawRef =>
  let counter_party := pyStrip rawCp
  let reference := pyStrip rawRef
  let descr :=
    if pyLower counter_party = pyLower reference then counter_party
    else reference ++ " (to: " ++ counter_party ++ ")"
  match c "Amount (GBP)" with
  | none => .fail (.keyError "Amount (GBP)")
  | some amtS =>
  if is_reimbursement then
    match parseDecimal amtS with
    | none => .fail (.decimalParseError amtS)
    | some amtD =>
    if pyGtZero amtD then .skip
    else
      .emit { description := descr,
              amount := pyDecStr (pyNeg (pyQuantize01HalfUp amtD)),
              date := strftimeYmd c_dt }
  else
    .emit { description := descr, amount := amtS, date := strftimeYmd c_dt }

/-- Model of `_extract_starling_data` (run.py lines 193-224). -/
def _extract_starling_data (start_datetime : DateTime) (content : List Row)
    (is_reimbursement : Bool) : Except ExtractError (List Record) :=
  foldRows (fun _ c => starlingStep start_datetime is_reimbursement c) 0 content

/-- Loop body of `_extract_wise_data` (run.py lines 236-254).  Note that the
unexpected-direction branch evaluates `c["direction"]` (lower-case d) while
building its message, although the column read earlier is `"Direction"`; with
a row lacking a `"direction"` key this subscript raises `KeyError` before the
intended `ValueError` is constructed. -/
def wiseStep (start_datetime : DateTime) (c : Row) : StepResult :=
  match c "Created on" with
  | none => .fail (.keyError "Created on")
  | some ds =>
  match strptimeYmdHMS ds with
  | none => .fail (.dateParseError ds)
  | some c_dt =>
  if dtLe c_dt start_datetime then .skip
  else
  match c "Direction" with
  | none => .fail (.keyError "Direction")
  | some transfer_direction =>
  match c "Source amount (after fees)" with
  | none => .fail (.keyError "Source amount (after fees)")
  | some amtS =>
  match c "Source fee amount" with
  | none => .fail (.keyError "Source fee amount")
  | some feeS =>
  match parseDecimal amtS with
  | none => .fail (.decimalParseError amtS)
  | some amtD =>
  match parseDecimal feeS with
  | none => .fail (.decimalParseError feeS)
  | some feeD =>
  let amount := pyDecStr (pyAdd amtD (pyQuantize01HalfUp feeD))
  if transfer_direction = "IN" then
    match c "Source name" with
    | none => .fail (.keyError "Source name")
    | some src =>
    .emit { description := "Received from " ++ src, amount := amount, date := strftimeYmd c_dt }
  else if transfer_direction = "OUT" then
    match c "Target name" with
    | none => .fail (.keyError "Target name")
    | some dst =>
    .emit { description := "Sent to " ++ dst, amount := "-" ++ amount, date := strftimeYmd c_dt }
  else
    match c "direction" with
    | none => .fail (.keyError "direction")
    | some dirVal => .fail (.valueError ("Unexpected transfer direction " ++ dirVal))

/-- Model of `_extract_wise_data` (run.py lines 227-256). -/
def _extract_wise_data (start_datetime : DateTime) (content : List Row) :
    Except ExtractError (List Record) :=
  foldRows (fun _ c => wiseStep start_datetime c) 0 content

/-- Loop body of `_extract_payoneer_data` (run.py lines 265-277). -/
def payoneerStep (start_datetime : DateTime) (c : Row) : StepResult :=
  match c "Date" with
  | none => .fail (.keyError "Date")
  | some ds =>
  match strptimeDbY ds with
  | none => .fail (.dateParseError ds)
  | some c_dt =>
  if dtLe c_dt start_datetime then .skip
  else
  match c "Amount" with
  | none => .fail (.keyError "Amount")
  | some rawAmt =>
  match c "Description" with
  | none => .fail (.keyError "Description")
  | some rawDescr =>
  .emit { description := pyReplaceChar rawDescr ',' "", amount := pyReplaceChar rawAmt ',' "",
          date := strftimeYmd c_dt }

/-- Model of `_extract_payoneer_data` (run.py lines 259-279). -/
def _extract_payoneer_data (start_datetime : DateTime) (content : List Row) :
    Except ExtractError (List Record) :=
  foldRows (fun _ c => payoneerStep start_datetime c) 0 content

/-- Loop body of `_extract_currenxie_data` (run.py lines 288-303). -/
def currenxieStep (start_datetime : DateTime) (c : Row) : StepResult :=
  match c "*Date" with
  | none => .fail (.keyError "*Date")
  | some ds =>
  match strptimeMDY ds with
  | none => .fail (.dateParseError ds)
  | some c_dt =>
  if dtLe c_dt start_datetime then .skip
  else
  match c "Description" with
  | none => .fail (.keyError "Description")
  | some rawDescr =>
  match c "Reference" with
  | none => .fail (.keyError "Reference")
  | some reference =>
  let descr := if reference ≠ "" then pyStrip (rawDescr ++ " - " ++ reference) else rawDescr
  match c "*Amount" with
  | none => .fail (.keyError "*Amount")
  | some amt =>
  .emit { description := descr, amount := amt, date := strftimeYmd c_dt }

/-- Model of `_extract_currenxie_data` (run.py lines 282-304). -/
def _extract_currenxie_data (start_datetime : DateTime) (content : List Row) :
    Except ExtractError (List Record) :=
  foldRows (fun _ c => currenxieStep start_datetime c) 0 content

/-! ## Enumerations, dispatch, writer, and orchestrator validation -/

/-- The `InputSource` enumeration of `run.py`. -/
inductive InputSource where
  | AIRWALLEX | CURRENXIE | ERSTEBANK | NEAT | PAYONEER | REVOLUT | STARLING | WISE
deriving DecidableEq, Repr

/-- The `OutputSource` enumeration of `run.py`. -/
inductive OutputSource where
  | FREEAGENT | WAVE
deriving DecidableEq, Repr

/-- Model of `read_input` (run.py lines 41-72) after file decoding, preamble
stripping and `csv.DictReader` parsing have produced the row list: the
dispatch to the per-source adapter. -/
def read_input (start_datetime : DateTime) (rows : List Row) (source : InputSource)
    (is_reimbursement : Bool) : Except ExtractError (List Record) :=
  match source with
  | .NEAT => _extract_neat_data start_datetime rows
  | .AIRWALLEX => _extract_airwallex_data start_datetime rows
  | .ERSTEBANK => _extract_erste_data start_datetime rows
  | .REVOLUT => _extract_revolut_data start_datetime rows is_reimbursement
  | .WISE => _extract_wise_data start_datetime rows
  | .STARLING => _extract_starling_data start_datetime rows is_reimbursement
  | .PAYONEER => _extract_payoneer_data start_datetime rows
  | .CURRENXIE => _extract_currenxie_data start_datetime rows

/-- Minimal-quoting CSV field serialization as done by `csv.writer`: quote a
field containing a delimiter, quote character or line break, doubling quotes. -/
def csvQuote (s : String) : String :=
  if s.data.any (fun ch => ch = ',' ∨ ch = '"' ∨ ch = '\r' ∨ ch = '\n') then
    "\"" ++ pyReplaceChar s '"' "\"\"" ++ "\""
  else s

/-- One output line of `csv.DictWriter` with
`fieldnames=[CSV_DATE_HEADER, CSV_AMOUNT_HEADER, CSV_DESCRIPTION_HEADER]`. -/
def recordLine (r : Record) : String :=
  csvQuote r.date ++ "," ++ csvQuote r.amount ++ "," ++ csvQuote r.description

/-- Model of `write_output` (run.py lines 307-314), giving the sequence of
CSV lines written: Wave gets the header line, FreeAgent does not. -/
def write_output (destination : OutputSource) (content : List Record) : List String :=
  (if destination = OutputSource.WAVE then
    [CSV_DATE_HEADER ++ "," ++ CSV_AMOUNT_HEADER ++ "," ++ CSV_DESCRIPTION_HEADER]
  else []) ++ content.map recordLine

/-- A `click.BadParameter` raised by `main`. -/
inductive CliError where
  | badParameter (msg : String)
deriving DecidableEq, Repr

/-- The source/target/reimbursement compatibility checks of `main`
(run.py lines 367-372), in order. -/
def main_validate (file_type_enum : InputSource) (target_platform_enum : OutputSource)
    (is_reimbursement : Bool) : Except CliError Unit :=
  if (file_type_enum = .REVOLUT ∨ file_type_enum = .STARLING) ∧ ¬ is_reimbursement then
    .error (.badParameter "Expected reimbursement flag")
  else if is_reimbursement ∧
      (¬ (file_type_enum = .REVOLUT ∨ file_type_enum = .STARLING)
        ∨ target_platform_enum ≠ .WAVE) then
    .error (.badParameter "Did not expect reimbursement flag")
  else .ok ()

/-- An error surfacing from `main`: a CLI validation failure or an exception
raised while extracting. -/
inductive MainError where
  | cli (e : CliError)
  | extract (e : ExtractError)
deriving DecidableEq, Repr

/-- Model of the `main` pipeline (run.py lines 357-378) after argument
parsing, with the input file already decoded to rows: validate the
source/target/reimbursement combination, then extract, then serialize.
The flag checks run before `read_input` touches the rows. -/
def main_core (file_type_enum : InputSource) (target_platform_enum : OutputSource)
    (is_reimbursement : Bool) (from_date : DateTime) (rows : List Row) :
    Except MainError (List String) :=
  match main_validate file_type_enum target_platform_enum is_reimbursement with
  | .error e => .error (.cli e)
  | .ok _ =>
    match read_input from_date rows file_type_enum is_reimbursement with
    | .error e => .error (.extract e)
    | .ok result => .ok (write_output target_platform_enum result)

/-! ## Properties and sample data -/

/-- Two step outcomes of the same kind: both skip, both emit the same record,
or both raise (possibly different exceptions).  Relates runs of the same loop
body at different `enumerate` indices, which can differ only inside raised
error messages. -/
def stepKindEq : StepResult → StepResult → Prop
  | .skip, .skip => True
  | .emit r, .emit r' => r = r'
  | .fail _, .fail _ => True
  | _, _ => False

/-- Every record an adapter emits originates in an input row whose date field
(under header `hdr`) parses (via `parse`) to a timestamp strictly after
`start`, and the record's date is that timestamp's ISO calendar date. -/
def emittedAfterCutoff (extract : List Row → Except ExtractError (List Record))
    (hdr : String) (parse : String → Option DateTime) (start : DateTime) : Prop :=
  ∀ rows recs, extract rows = .ok recs → ∀ r ∈ recs,
    ∃ c ∈ rows, ∃ s dt, c hdr = some s ∧ parse s = some dt ∧ dtLe dt start = false ∧
      r.date = strftimeYmd dt

/-- A row whose date parses to a timestamp at or before `start` contributes
nothing: extraction of `c :: rest` coincides with extraction of `rest`. -/
def cutoffSkip (extract : List Row → Except ExtractError (List Record))
    (hdr : String) (parse : String → Option DateTime) (start : DateTime) : Prop :=
  ∀ c rest s dt, c hdr = some s → parse s = some dt → dtLe dt start = true →
    extract (c :: rest) = extract rest

/-- Like `cutoffSkip` but comparing only successful outcomes: used for the
ErsteBank adapter, whose raised error messages embed the enumerate index and
therefore shift when a row is removed. -/
def cutoffSkipOk (extract : List Row → Except ExtractError (List Record))
    (hdr : String) (parse : String → Option DateTime) (start : DateTime) : Prop :=
  ∀ c rest s dt recs, c hdr = some s → parse s = some dt → dtLe dt start = true →
    (extract (c :: rest) = .ok recs ↔ extract rest = .ok recs)

/-- Cutoff timestamp 2021-01-01 00:00:00 used by the concrete witnesses. -/
def sampleStart : DateTime := ⟨2021, 1, 1, 0, 0, 0⟩

/-- The parsed timestamp 2021-03-15 10:00:00. -/
def sampleDT : DateTime := ⟨2021, 3, 15, 10, 0, 0⟩

/-- The parsed date-only timestamp 2021-03-15 00:00:00. -/
def sampleDT0 : DateTime := ⟨2021, 3, 15, 0, 0, 0⟩

/-- A Neat row dated before the sample cutoff. -/
def sampleNeatOld : Row :=
  mkRow [("Transaction Date", "2020-05-05 10:00:00"), ("Description", "Old"),
         ("Transaction Amount", "1.00")]

/-- A non-completed Revolut row whose completion date is not a date at all. -/
def sampleRevolutReverted : Row :=
  mkRow [("State", "REVERTED"), ("Completed Date", "junk")]

/-- A completed Revolut expense row with amount -12.345. -/
def sampleRevolutNeg : Row :=
  mkRow [("State", "COMPLETED"), ("Completed Date", "2021-03-15 10:00:00"),
         ("Description", "Cafe, nice"), ("Amount", "-12.345")]

/-- A completed Revolut refund row with positive amount. -/
def sampleRevolutPos : Row :=
  mkRow [("State", "COMPLETED"), ("Completed Date", "2021-03-15 10:00:00"),
         ("Description", "Refund"), ("Amount", "5.00")]

/-- A completed Revolut row with amount exactly zero. -/
def sampleRevolutZero : Row :=
  mkRow [("State", "COMPLETED"), ("Completed Date", "2021-03-15 10:00:00"),
         ("Description", "Zero"), ("Amount", "0.00")]

/-- A Starling expense row with the half-way amount -0.125 and a counterparty
equal to its reference up to case and surrounding whitespace. -/
def sampleStarlingNeg : Row :=
  mkRow [("Date", "15/03/2021"), ("Counter Party", " Tesco "), ("Reference", "TESCO"),
         ("Amount (GBP)", "-0.125")]

/-- A Starling row with amount exactly zero. -/
def sampleStarlingZero : Row :=
  mkRow [("Date", "15/03/2021"), ("Counter Party", "Tesco"), ("Reference", "Groceries"),
         ("Amount (GBP)", "0.00")]

/-- An ErsteBank row with both the deposit and the payment column populated. -/
def sampleErsteBoth : Row :=
  mkRow [("Datum izvršenja", "15.03.2021"), ("Opis plaæanja, kurs", "Racun"),
         ("Uplate", "1.234,56"), ("Isplate", "2,00"), ("Primalac", "ACME")]

/-- An ErsteBank row with only the deposit column populated. -/
def sampleErsteIn : Row :=
  mkRow [("Datum izvršenja", "15.03.2021"), ("Opis plaæanja, kurs", "Racun"),
         ("Uplate", "1.234,56"), ("Isplate", ""), ("Primalac", "ACME")]

/-- An ErsteBank row with only the payment column populated. -/
def sampleErsteOut : Row :=
  mkRow [("Datum izvršenja", "15.03.2021"), ("Opis plaæanja, kurs", "Racun"),
         ("Uplate", ""), ("Isplate", "2,00"), ("Primalac", "ACME")]

/-- An ErsteBank row with both amount columns empty. -/
def sampleErsteEmpty : Row :=
  mkRow [("Datum izvršenja", "15.03.2021"), ("Opis plaæanja, kurs", "Racun"),
         ("Uplate", ""), ("Isplate", ""), ("Primalac", "ACME")]

/-- A Wise row whose direction tag is neither "IN" nor "OUT". -/
def sampleWiseBad : Row :=
  mkRow [("Created on", "2021-03-15 10:00:00"), ("Direction", "SIDEWAYS"),
         ("Source amount (after fees)", "10.00"), ("Source fee amount", "0.50")]

/-- An inbound Wise row. -/
def sampleWiseIn : Row :=
  mkRow [("Created on", "2021-03-15 10:00:00"), ("Direction", "IN"),
         ("Source amount (after fees)", "12.3"), ("Source fee amount", "0.045"),
         ("Source name", "ACME")]

/-- An outbound Wise row. -/
def sampleWiseOut : Row :=
  mkRow [("Created on", "2021-03-15 10:00:00"), ("Direction", "OUT"),
         ("Source amount (after fees)", "10.00"), ("Source fee amount", "0.50"),
         ("Target name", "Supplies Inc")]

/-! ## Generic lemmas about the extraction loop -/

theorem exceptMap_eq_ok {f : List Record → List Record} {x : Except ExtractError (List Record)}
    {y : List Record} :
    Except.map f x = .ok y ↔ ∃ a, x = .ok a ∧ y = f a := by
  cases x with
  | error e => simp [Except.map]
  | ok a => simp [Except.map, eq_comm]

theorem foldRows_ok_mem {step : Nat → Row → StepResult} :
    ∀ {i : Nat} {rows : List Row} {recs : List Record},
      foldRows step i rows = .ok recs → ∀ r ∈ recs, ∃ j c, c ∈ rows ∧ step j c = .emit r := by
  intro i rows
  induction rows generalizing i with
  | nil =>
    intro recs h r hr
    simp only [foldRows] at h
    cases h
    simp at hr
  | cons c rest ih =>
    intro recs h r hr
    simp only [foldRows] at h
    cases hs : step i c with
    | skip =>
      rw [hs] at h
      obtain ⟨j, c2, hc2, he⟩ := ih h r hr
      exact ⟨j, c2, List.mem_cons_of_mem c hc2, he⟩
    | emit r0 =>
      rw [hs] at h
      obtain ⟨a, ha, hy⟩ := exceptMap_eq_ok.mp h
      subst hy
      rcases List.mem_cons.mp hr with h1 | h2
      · exact ⟨i, c, List.mem_cons_self c rest, by rw [hs, h1]⟩
      · obtain ⟨j, c2, hc2, he⟩ := ih ha r h2
        exact ⟨j, c2, List.mem_cons_of_mem c hc2, he⟩
    | fail e =>
      rw [hs] at h
      cases h

theorem foldRows_constStep (f : Row → StepResult) :
    ∀ (i : Nat) (rows : List Row),
      foldRows (fun _ c => f c) i rows = foldRows (fun _ c => f c) 0 rows := by
  intro i rows
  induction rows generalizing i with
  | nil => rfl
  | cons c rest ih =>
    simp only [foldRows]
    cases f c with
    | skip => rw [ih (i + 1), ih (0 + 1)]
    | emit r => rw [ih (i + 1), ih (0 + 1)]
    | fail e => rfl

theorem foldRows_ok_kind {step : Nat → Row → StepResult}
    (hk : ∀ j k c, stepKindEq (step j c) (step k c)) :
    ∀ {j k : Nat} {rows : List Row} {recs : List Record},
      foldRows step j rows = .ok recs → foldRows step k rows = .ok recs := by
  intro j k rows
  induction rows generalizing j k with
  | nil => intro recs h; exact h
  | cons c rest ih =>
    intro recs h
    simp only [foldRows] at h ⊢
    have hkc := hk j k c
    cases hsj : step j c with
    | skip =>
      rw [hsj] at h hkc
      cases hsk : step k c with
      | skip => exact ih h
      | emit r => rw [hsk] at hkc; simp [stepKindEq] at hkc
      | fail e => rw [hsk] at hkc; simp [stepKindEq] at hkc
    | emit r =>
      rw [hsj] at h hkc
      cases hsk : step k c with
      | skip => rw [hsk] at hkc; simp [stepKindEq] at hkc
      | emit r2 =>
        rw [hsk] at hkc
        simp only [stepKindEq] at hkc
        subst hkc
        obtain ⟨a, ha, hy⟩ := exceptMap_eq_ok.mp h
        subst hy
        exact exceptMap_eq_ok.mpr ⟨a, ih ha, rfl⟩
      | fail e => rw [hsk] at hkc; simp [stepKindEq] at hkc
    | fail e =>
      rw [hsj] at h
      cases h

theorem foldRows_cons_skip {step : Nat → Row → StepResult} {i : Nat} {c : Row} {rest : List Row}
    (h : step i c = .skip) :
    foldRows step i (c :: rest) = foldRows step (i + 1) rest := by
  simp [foldRows, h]

theorem foldRows_cons_emit {step : Nat → Row → StepResult} {i : Nat} {c : Row} {rest : List Row}
    {r : Record} (h : step i c = .emit r) :
    foldRows step i (c :: rest) = Except.map (fun tl => r :: tl) (foldRows step (i + 1) rest) := by
  simp [foldRows, h]

theorem foldRows_cons_fail {step : Nat → Row → StepResult} {i : Nat} {c : Row} {rest : List Row}
    {e : ExtractError} (h : step i c = .fail e) :
    foldRows step i (c :: rest) = .error e := by
  simp [foldRows, h]

theorem constFold_cons_skip (f : Row → StepResult) {c : Row} {rest : List Row}
    (h : f c = .skip) :
    foldRows (fun _ x => f x) 0 (c :: rest) = foldRows (fun _ x => f x) 0 rest := by
  rw [foldRows_cons_skip (by simpa using h)]
  exact foldRows_constStep f 1 rest

theorem constFold_cons_emit (f : Row → StepResult) {c : Row} {rest : List Row} {r : Record}
    (h : f c = .emit r) :
    foldRows (fun _ x => f x) 0 (c :: rest)
      = Except.map (fun tl => r :: tl) (foldRows (fun _ x => f x) 0 rest) := by
  rw [foldRows_cons_emit (by simpa using h), foldRows_constStep f 1 rest]

theorem constFold_cons_fail (f : Row → StepResult) {c : Row} {rest : List Row}
    {e : ExtractError} (h : f c = .fail e) :
    foldRows (fun _ x => f x) 0 (c :: rest) = .error e :=
  foldRows_cons_fail (by simpa using h)

/-! ## Per-adapter loop-body lemmas -/

/-- Any record the Neat loop body emits carries the ISO date of a parsed timestamp strictly after the cutoff. -/
theorem neatStep_emit {start : DateTime} {c : Row} {r : Record}
    (h : neatStep start c = .emit r) :
    ∃ s dt, c "Transaction Date" = some s ∧ strptimeYmdHMS s = some dt ∧
      dtLe dt start = false ∧ r.date = strftimeYmd dt := by
  unfold neatStep at h
  split at h
  · simp at h
  next ds hds =>
    split at h
    · simp at h
    next dt hdt =>
      split at h
      · simp at h
      next hle =>
        split at h
        · simp at h
        next descr hdescr =>
          split at h
          · simp at h
          next amt hamt =>
            cases h
            exact ⟨ds, dt, hds, hdt, by simpa using hle, rfl⟩

/-- Any record the Airwallex loop body emits carries the ISO date of a parsed timestamp strictly after the cutoff. -/
theorem airwallexStep_emit {start : DateTime} {c : Row} {r : Record}
    (h : airwallexStep start c = .emit r) :
    ∃ s dt, c "Created At" = some s ∧ strptimeYmdHMS s = some dt ∧
      dtLe dt start = false ∧ r.date = strftimeYmd dt := by
  unfold airwallexStep at h
  split at h
  · simp at h
  next ds hds =>
    split at h
    · simp at h
    next dt hdt =>
      split at h
      · simp at h
      next hle =>
        split at h
        · simp at h
        next ty hty =>
          split at h
          · simp at h
          next hvalid =>
            split at h
            next hdep =>
              split at h
              · simp at h
              next remitter hrem =>
                split at h
                · simp at h
                next amt hamt =>
                  cases h
                  exact ⟨ds, dt, hds, hdt, by simpa using hle, rfl⟩
            next hdep =>
              split at h
              next hpay =>
                split at h
                · simp at h
                next beneficiary hben =>
                  split at h
                  · simp at h
                  next amt hamt =>
                    cases h
                    exact ⟨ds, dt, hds, hdt, by simpa using hle, rfl⟩
              next hpay =>
                split at h
                · simp at h
                next amt hamt =>
                  cases h
                  exact ⟨ds, dt, hds, hdt, by simpa using hle, rfl⟩

/-- Any record the ErsteBank loop body emits carries the ISO date of a parsed timestamp strictly after the cutoff. -/
theorem ersteStep_emit {start : DateTime} {i : Nat} {c : Row} {r : Record}
    (h : ersteStep start i c = .emit r) :
    ∃ s dt, c "Datum izvršenja" = some s ∧ strptimeDMY '.' s = some dt ∧
      dtLe dt start = false ∧ r.date = strftimeYmd dt := by
  unfold ersteStep at h
  cases hds : c "Datum izvršenja" with
  | none => simp [hds] at h
  | some ds =>
  simp only [hds] at h
  cases hdt : strptimeDMY '.' ds with
  | none => simp [hdt] at h
  | some dt =>
  simp only [hdt] at h
  cases hle : dtLe dt start with
  | true => simp [hle] at h
  | false =>
  rw [hle, if_neg Bool.false_ne_true] at h
  cases hde : c "Opis plaæanja, kurs" with
  | none => simp [hde] at h
  | some descr =>
  simp only [hde] at h
  cases hup : c "Uplate" with
  | none => simp [hup] at h
  | some uplate =>
  simp only [hup] at h
  cases hisp : c "Isplate" with
  | none => simp [hisp] at h
  | some isplate =>
  simp only [hisp] at h
  by_cases hboth : continentalNormalize uplate ≠ "" ∧ continentalNormalize isplate ≠ ""
  · rw [if_pos hboth] at h
    simp at h
  · rw [if_neg hboth] at h
    cases hben : c "Primalac" with
    | none => simp [hben] at h
    | some b =>
    simp only [hben] at h
    by_cases hin : continentalNormalize uplate ≠ ""
    · rw [if_pos hin] at h
      cases h
      exact ⟨ds, dt, rfl, hdt, hle, rfl⟩
    · rw [if_neg hin] at h
      cases h
      exact ⟨ds, dt, rfl, hdt, hle, rfl⟩

/-- Any record the Revolut loop body emits carries the ISO date of a parsed timestamp strictly after the cutoff. -/
theorem revolutStep_emit {start : DateTime} {flag : Bool} {c : Row} {r : Record}
    (h : revolutStep start flag c = .emit r) :
    ∃ s dt, c "Completed Date" = some s ∧ strptimeYmdHMS s = some dt ∧
      dtLe dt start = false ∧ r.date = strftimeYmd dt := by
  unfold revolutStep at h
  split at h
  · simp at h
  next st hst =>
    split at h
    · simp at h
    next hcompleted =>
      split at h
      · simp at h
      next ds hds =>
        split at h
        · simp at h
        next dt hdt =>
          split at h
          · simp at h
          next hle =>
            split at h
            · simp at h
            next rawD hrawD =>
              split at h
              · simp at h
              next amtS hamtS =>
                split at h
                · -- reimbursement branch
                  split at h
                  · simp at h
                  next amtD hamtD =>
                    split at h
                    · simp at h
                    · cases h
                      exact ⟨ds, dt, hds, hdt, by simpa using hle, rfl⟩
                · cases h
                  exact ⟨ds, dt, hds, hdt, by simpa using hle, rfl⟩

/-- Any record the Starling loop body emits carries the ISO date of a parsed timestamp strictly after the cutoff, and its description is the stripped counterparty when it equals the stripped reference case-insensitively, otherwise the annotated reference. -/
theorem starlingStep_emit {start : DateTime} {flag : Bool} {c : Row} {r : Record}
    (h : starlingStep start flag c = .emit r) :
    ∃ s dt, c "Date" = some s ∧ strptimeDMY '/' s = some dt ∧
      dtLe dt start = false ∧ r.date = strftimeYmd dt ∧
      ∃ cp ref, c "Counter Party" = some cp ∧ c "Reference" = some ref ∧
        r.description = (if pyLower (pyStrip cp) = pyLower (pyStrip ref) then pyStrip cp
          else pyStrip ref ++ " (to: " ++ pyStrip cp ++ ")") := by
  unfold starlingStep at h
  split at h
  · simp at h
  next ds hds =>
    split at h
    · simp at h
    next dt hdt =>
      split at h
      · simp at h
      next hle =>
        split at h
        · simp at h
        next cp hcp =>
          split at h
          · simp at h
          next ref href =>
            split at h
            · simp at h
            next amtS hamtS =>
              split at h
              · split at h
                · simp at h
                next amtD hamtD =>
                  split at h
                  · simp at h
                  · cases h
                    exact ⟨ds, dt, hds, hdt, by simpa using hle, rfl, cp, ref, hcp, href, rfl⟩
              · cases h
                exact ⟨ds, dt, hds, hdt, by simpa using hle, rfl, cp, ref, hcp, href, rfl⟩

/-- Any record the Wise loop body emits carries the ISO date of a parsed timestamp strictly after the cutoff. -/
theorem wiseStep_emit {start : DateTime} {c : Row} {r : Record}
    (h : wiseStep start c = .emit r) :
    ∃ s dt, c "Created on" = some s ∧ strptimeYmdHMS s = some dt ∧
      dtLe dt start = false ∧ r.date = strftimeYmd dt := by
  unfold wiseStep at h
  split at h
  · simp at h
  next ds hds =>
    split at h
    · simp at h
    next dt hdt =>
      split at h
      · simp at h
      next hle =>
        split at h
        · simp at h
        next dir hdir =>
          split at h
          · simp at h
          next amtS hamtS =>
            split at h
            · simp at h
            next feeS hfeeS =>
              split at h
              · simp at h
              next amtD hamtD =>
                split at h
                · simp at h
                next feeD hfeeD =>
                  split at h
                  · split at h
                    · simp at h
                    next src hsrc =>
                      cases h
                      exact ⟨ds, dt, hds, hdt, by simpa using hle, rfl⟩
                  · split at h
                    · split at h
                      · simp at h
                      next dst hdst =>
                        cases h
                        exact ⟨ds, dt, hds, hdt, by simpa using hle, rfl⟩
                    · split at h
                      · simp at h
                      · simp at h

/-- Any record the Payoneer loop body emits carries the ISO date of a parsed timestamp strictly after the cutoff. -/
theorem payoneerStep_emit {start : DateTime} {c : Row} {r : Record}
    (h : payoneerStep start c = .emit r) :
    ∃ s dt, c "Date" = some s ∧ strptimeDbY s = some dt ∧
      dtLe dt start = false ∧ r.date = strftimeYmd dt := by
  unfold payoneerStep at h
  split at h
  · simp at h
  next ds hds =>
    split at h
    · simp at h
    next dt hdt =>
      split at h
      · simp at h
      next hle =>
        split at h
        · simp at h
        next rawAmt hamt =>
          split at h
          · simp at h
          next rawDescr hdescr =>
            cases h
            exact ⟨ds, dt, hds, hdt, by simpa using hle, rfl⟩

/-- Any record the Currenxie loop body emits carries the ISO date of a parsed timestamp strictly after the cutoff. -/
theorem currenxieStep_emit {start : DateTime} {c : Row} {r : Record}
    (h : currenxieStep start c = .emit r) :
    ∃ s dt, c "*Date" = some s ∧ strptimeMDY s = some dt ∧
      dtLe dt start = false ∧ r.date = strftimeYmd dt := by
  unfold currenxieStep at h
  split at h
  · simp at h
  next ds hds =>
    split at h
    · simp at h
    next dt hdt =>
      split at h
      · simp at h
      next hle =>
        split at h
        · simp at h
        next rawDescr hdescr =>
          split at h
          · simp at h
          next reference href =>
            split at h
            · split at h
              · simp at h
              next amt hamt =>
                cases h
                exact ⟨ds, dt, hds, hdt, by simpa using hle, rfl⟩
            · split at h
              · simp at h
              next amt hamt =>
                cases h
                exact ⟨ds, dt, hds, hdt, by simpa using hle, rfl⟩

/-- Runs of the ErsteBank loop body at two different enumerate indices have
outcomes of the same kind: the index occurs only inside a raised message. -/
theorem ersteStep_kindEq (start : DateTime) (j k : Nat) (c : Row) :
    stepKindEq (ersteStep start j c) (ersteStep start k c) := by
  unfold ersteStep
  cases h1 : c "Datum izvršenja" with
  | none => simp [stepKindEq]
  | some ds =>
    cases h2 : strptimeDMY '.' ds with
    | none => simp [h2, stepKindEq]
    | some c_dt =>
      cases h3 : dtLe c_dt start with
      | true => simp [h2, h3, stepKindEq]
      | false =>
        cases h4 : c "Opis plaæanja, kurs" with
        | none => simp [h2, h3, h4, stepKindEq]
        | some descr =>
          cases h5 : c "Uplate" with
          | none => simp [h2, h3, h4, h5, stepKindEq]
          | some uplate =>
            cases h6 : c "Isplate" with
            | none => simp [h2, h3, h4, h5, h6, stepKindEq]
            | some isplate =>
              by_cases hb : continentalNormalize uplate ≠ "" ∧ continentalNormalize isplate ≠ ""
              · simp [h2, h3, h4, h5, h6, hb, stepKindEq]
              · cases h7 : c "Primalac" with
                | none => simp [h2, h3, h4, h5, h6, hb, h7, stepKindEq]
                | some b =>
                  by_cases hi : continentalNormalize uplate ≠ ""
                  · by_cases hj : continentalNormalize isplate = ""
                    · simp [h2, h3, h4, h5, h6, hb, h7, hi, hj, stepKindEq]
                    · simp [h2, h3, h4, h5, h6, hb, h7, hi, hj, stepKindEq]
                  · simp [h2, h3, h4, h5, h6, hb, h7, hi, stepKindEq]

/-- The Neat loop body skips a row whose parsed date is at or before the cutoff. -/
theorem neatStep_skip {start : DateTime} {c : Row} {s : String} {dt : DateTime}
    (hds : c "Transaction Date" = some s) (hdt : strptimeYmdHMS s = some dt)
    (hle : dtLe dt start = true) : neatStep start c = .skip := by
  unfold neatStep
  simp [hds, hdt, hle]

/-- The Airwallex loop body skips a row whose parsed date is at or before the cutoff. -/
theorem airwallexStep_skip {start : DateTime} {c : Row} {s : String} {dt : DateTime}
    (hds : c "Created At" = some s) (hdt : strptimeYmdHMS s = some dt)
    (hle : dtLe dt start = true) : airwallexStep start c = .skip := by
  unfold airwallexStep
  simp [hds, hdt, hle]

/-- The ErsteBank loop body skips a row whose parsed date is at or before the cutoff. -/
theorem ersteStep_skip {start : DateTime} {i : Nat} {c : Row} {s : String} {dt : DateTime}
    (hds : c "Datum izvršenja" = some s) (hdt : strptimeDMY '.' s = some dt)
    (hle : dtLe dt start = true) : ersteStep start i c = .skip := by
  unfold ersteStep
  simp [hds, hdt, hle]

/-- The Revolut loop body skips any row whose state differs from COMPLETED. -/
theorem revolutStep_skip_state {start : DateTime} {flag : Bool} {c : Row} {st : String}
    (hst : c "State" = some st) (hne : st ≠ "COMPLETED") :
    revolutStep start flag c = .skip := by
  unfold revolutStep
  simp [hst, hne]

/-- The Revolut loop body skips a completed row whose parsed completion date
is at or before the cutoff. -/
theorem revolutStep_skip_date {start : DateTime} {flag : Bool} {c : Row} {s : String}
    {dt : DateTime} (hst : c "State" = some "COMPLETED") (hds : c "Completed Date" = some s)
    (hdt : strptimeYmdHMS s = some dt) (hle : dtLe dt start = true) :
    revolutStep start flag c = .skip := by
  unfold revolutStep
  simp [hst, hds, hdt, hle]

/-- The Starling loop body skips a row whose parsed date is at or before the cutoff. -/
theorem starlingStep_skip {start : DateTime} {flag : Bool} {c : Row} {s : String} {dt : DateTime}
    (hds : c "Date" = some s) (hdt : strptimeDMY '/' s = some dt)
    (hle : dtLe dt start = true) : starlingStep start flag c = .skip := by
  unfold starlingStep
  simp [hds, hdt, hle]

/-- The Wise loop body skips a row whose parsed date is at or before the cutoff. -/
theorem wiseStep_skip {start : DateTime} {c : Row} {s : String} {dt : DateTime}
    (hds : c "Created on" = some s) (hdt : strptimeYmdHMS s = some dt)
    (hle : dtLe dt start = true) : wiseStep start c = .skip := by
  unfold wiseStep
  simp [hds, hdt, hle]

/-- The Payoneer loop body skips a row whose parsed date is at or before the cutoff. -/
theorem payoneerStep_skip {start : DateTime} {c : Row} {s : String} {dt : DateTime}
    (hds : c "Date" = some s) (hdt : strptimeDbY s = some dt)
    (hle : dtLe dt start = true) : payoneerStep start c = .skip := by
  unfold payoneerStep
  simp [hds, hdt, hle]

/-- The Currenxie loop body skips a row whose parsed date is at or before the cutoff. -/
theorem currenxieStep_skip {start : DateTime} {c : Row} {s : String} {dt : DateTime}
    (hds : c "*Date" = some s) (hdt : strptimeMDY s = some dt)
    (hle : dtLe dt start = true) : currenxieStep start c = .skip := by
  unfold currenxieStep
  simp [hds, hdt, hle]

/-- In reimbursement mode the Revolut loop body drops a completed, after-cutoff
row whose amount compares strictly greater than zero. -/
theorem revolutStep_reimb_drop {start : DateTime} {c : Row} {ds : String} {dt : DateTime}
    {rawD amtS : String} {d : PyDecimal}
    (hst : c "State" = some "COMPLETED") (hds : c "Completed Date" = some ds)
    (hdt : strptimeYmdHMS ds = some dt) (hle : dtLe dt start = false)
    (hrd : c "Description" = some rawD) (ha : c "Amount" = some amtS)
    (hp : parseDecimal amtS = some d) (hpos : pyGtZero d = true) :
    revolutStep start true c = .skip := by
  unfold revolutStep
  simp [hst, hds, hdt, hle, hrd, ha, hp, hpos]

/-- In reimbursement mode the Revolut loop body emits, for a retained row, the
negated quantized amount and the comma-stripped description. -/
theorem revolutStep_reimb_emit {start : DateTime} {c : Row} {ds : String} {dt : DateTime}
    {rawD amtS : String} {d : PyDecimal}
    (hst : c "State" = some "COMPLETED") (hds : c "Completed Date" = some ds)
    (hdt : strptimeYmdHMS ds = some dt) (hle : dtLe dt start = false)
    (hrd : c "Description" = some rawD) (ha : c "Amount" = some amtS)
    (hp : parseDecimal amtS = some d) (hpos : pyGtZero d = false) :
    revolutStep start true c =
      .emit { date := strftimeYmd dt, amount := pyDecStr (pyNeg (pyQuantize01HalfUp d)),
              description := pyReplaceChar rawD ',' "" } := by
  unfold revolutStep
  simp [hst, hds, hdt, hle, hrd, ha, hp, hpos]

/-- In reimbursement mode the Starling loop body drops an after-cutoff row
whose amount compares strictly greater than zero. -/
theorem starlingStep_reimb_drop {start : DateTime} {c : Row} {ds : String} {dt : DateTime}
    {cp ref amtS : String} {d : PyDecimal}
    (hds : c "Date" = some ds) (hdt : strptimeDMY '/' ds = some dt)
    (hle : dtLe dt start = false) (hcp : c "Counter Party" = some cp)
    (href : c "Reference" = some ref) (ha : c "Amount (GBP)" = some amtS)
    (hp : parseDecimal amtS = some d) (hpos : pyGtZero d = true) :
    starlingStep start true c = .skip := by
  unfold starlingStep
  simp [hds, hdt, hle, hcp, href, ha, hp, hpos]

/-- In reimbursement mode the Starling loop body emits, for a retained row,
the negated quantized amount and the de-duplicated description. -/
theorem starlingStep_reimb_emit {start : DateTime} {c : Row} {ds : String} {dt : DateTime}
    {cp ref amtS : String} {d : PyDecimal}
    (hds : c "Date" = some ds) (hdt : strptimeDMY '/' ds = some dt)
    (hle : dtLe dt start = false) (hcp : c "Counter Party" = some cp)
    (href : c "Reference" = some ref) (ha : c "Amount (GBP)" = some amtS)
    (hp : parseDecimal amtS = some d) (hpos : pyGtZero d = false) :
    starlingStep start true c =
      .emit { date := strftimeYmd dt, amount := pyDecStr (pyNeg (pyQuantize01HalfUp d)),
              description := if pyLower (pyStrip cp) = pyLower (pyStrip ref) then pyStrip cp
                else pyStrip ref ++ " (to: " ++ pyStrip cp ++ ")" } := by
  unfold starlingStep
  simp [hds, hdt, hle, hcp, href, ha, hp, hpos]

/-- The ErsteBank loop body raises the both-populated `ValueError`, with the
description and the enumerate index in its message. -/
theorem ersteStep_both_fail {start : DateTime} {i : Nat} {c : Row} {ds : String} {dt : DateTime}
    {descr u p : String}
    (hds : c "Datum izvršenja" = some ds) (hdt : strptimeDMY '.' ds = some dt)
    (hle : dtLe dt start = false) (hde : c "Opis plaæanja, kurs" = some descr)
    (hu : c "Uplate" = some u) (hp : c "Isplate" = some p)
    (hnu : continentalNormalize u ≠ "") (hnp : continentalNormalize p ≠ "") :
    ersteStep start i c = .fail (.valueError
      ("Both inbound and outbound transactions for " ++ descr ++ " (line " ++ toString i ++ ")")) := by
  unfold ersteStep
  simp [hds, hdt, hle, hde, hu, hp, hnu, hnp]

/-- The ErsteBank loop body emits the normalized deposit column, unsigned,
when only that column is populated. -/
theorem ersteStep_in_emit {start : DateTime} {i : Nat} {c : Row} {ds : String} {dt : DateTime}
    {descr u p b : String}
    (hds : c "Datum izvršenja" = some ds) (hdt : strptimeDMY '.' ds = some dt)
    (hle : dtLe dt start = false) (hde : c "Opis plaæanja, kurs" = some descr)
    (hu : c "Uplate" = some u) (hp : c "Isplate" = some p)
    (hnu : continentalNormalize u ≠ "") (hnp : continentalNormalize p = "")
    (hb : c "Primalac" = some b) :
    ersteStep start i c =
      .emit { date := strftimeYmd dt, amount := continentalNormalize u,
              description := if b ≠ "" then descr ++ " from " ++ b else descr } := by
  unfold ersteStep
  simp [hds, hdt, hle, hde, hu, hp, hnu, hnp, hb]

/-- The ErsteBank loop body emits `"-"` prefixed to the normalized payment
column whenever the deposit column is empty. -/
theorem ersteStep_out_emit {start : DateTime} {i : Nat} {c : Row} {ds : String} {dt : DateTime}
    {descr u p b : String}
    (hds : c "Datum izvršenja" = some ds) (hdt : strptimeDMY '.' ds = some dt)
    (hle : dtLe dt start = false) (hde : c "Opis plaæanja, kurs" = some descr)
    (hu : c "Uplate" = some u) (hp : c "Isplate" = some p)
    (hnu : continentalNormalize u = "") (hb : c "Primalac" = some b) :
    ersteStep start i c =
      .emit { date := strftimeYmd dt, amount := "-" ++ continentalNormalize p,
              description := if b ≠ "" then descr ++ " to " ++ b else descr } := by
  unfold ersteStep
  simp [hds, hdt, hle, hde, hu, hp, hnu, hb]

/-! ## Decimal rounding semantics -/

/-- Decimal negation negates the denoted rational value (negative zero denotes 0). -/
theorem decValQ_pyNeg (d : PyDecimal) : decValQ (pyNeg d) = -(decValQ d) := by
  rcases d with ⟨sg, m, e⟩
  simp only [pyNeg, decValQ]
  by_cases hm : m = 0
  · subst hm; simp
  · rw [if_neg hm]
    cases sg <;> simp [neg_div]

/-- The modelled `Decimal.__gt__(0)` agrees with positivity of the denoted rational. -/
theorem pyGtZero_iff (d : PyDecimal) : pyGtZero d = true ↔ 0 < decValQ d := by
  rcases d with ⟨sg, m, e⟩
  have hpow : (0 : ℚ) < 10 ^ e := by positivity
  cases sg with
  | false =>
    simp only [pyGtZero, decValQ, Bool.not_false, Bool.true_and, bne_iff_ne, ne_eq]
    norm_num
    omega
  | true =>
    simp only [pyGtZero, decValQ, Bool.not_true, Bool.false_and]
    norm_num

/-- Rounding a nonnegative fraction to the nearest integer, ties upward, as floor of the value plus one half. -/
theorem floor_half_div (den q r : ℕ) (hden : 0 < den) (hr : r < den) :
    ⌊((den * q + r : ℕ) : ℚ) / den + 1 / 2⌋ = q + (if den ≤ 2 * r then 1 else 0) := by
  have hdenQ : (0 : ℚ) < den := by exact_mod_cast hden
  have key : ((den * q + r : ℕ) : ℚ) / den = q + r / den := by
    push_cast
    field_simp
    ring
  rw [key, add_assoc, Int.floor_nat_add]
  congr 1
  by_cases hc : den ≤ 2 * r
  · rw [if_pos hc]
    have hc' : (den : ℚ) ≤ 2 * r := by exact_mod_cast hc
    have h1 : (1 : ℚ) / 2 ≤ (r : ℚ) / den := by
      rw [le_div_iff₀ hdenQ]
      linarith
    have h2 : (r : ℚ) / den < 1 := by
      rw [div_lt_one hdenQ]
      exact_mod_cast hr
    rw [Int.floor_eq_iff]
    constructor
    · push_cast
      linarith
    · push_cast
      linarith
  · rw [if_neg hc]
    have hc' : (2 : ℚ) * r < den := by exact_mod_cast Nat.lt_of_not_le hc
    have h1 : (0 : ℚ) ≤ (r : ℚ) / den := by positivity
    have h2 : (r : ℚ) / den < 1 / 2 := by
      rw [div_lt_iff₀ hdenQ]
      linarith
    rw [Int.floor_eq_iff]
    constructor
    · push_cast
      linarith
    · push_cast
      linarith

/-- The floor of one half is zero. -/
theorem floor_one_half : ⌊(1 : ℚ) / 2⌋ = 0 := by
  rw [Int.floor_eq_iff]
  constructor <;> norm_num

/-- Quantizing a zero decimal of either sign yields a zero with two fractional digits. -/
theorem pyQuantize_zero (sg : Bool) (e : Nat) : pyQuantize01HalfUp ⟨sg, 0, e⟩ = ⟨sg, 0, 2⟩ := by
  unfold pyQuantize01HalfUp
  by_cases he : e ≤ 2
  · simp [he]
  · have hpos : 0 < 10 ^ (e - 2) := Nat.pos_pow_of_pos _ (by norm_num)
    simp [he, Nat.zero_div, Nat.zero_mod, Nat.not_le.mpr hpos]

/-- For a nonpositive decimal, negate-then-quantize-half-up computes exactly round-half-up of the negated rational value at two decimals: the value of `-d.quantize(".01", ROUND_HALF_UP)` is `⌊-v*100 + 1/2⌋ / 100` where `v` is the value of `d`. -/
theorem pyRound_spec (d : PyDecimal) (h : pyGtZero d = false) :
    decValQ (pyNeg (pyQuantize01HalfUp d)) = ((⌊-(decValQ d) * 100 + 1 / 2⌋ : ℤ) : ℚ) / 100 := by
  rw [decValQ_pyNeg]
  rcases d with ⟨sg, m, e⟩
  by_cases hm : m = 0
  · subst hm
    rw [pyQuantize_zero]
    have hz : decValQ ⟨sg, 0, e⟩ = 0 := by cases sg <;> simp [decValQ]
    have hz2 : decValQ ⟨sg, 0, 2⟩ = 0 := by cases sg <;> simp [decValQ]
    rw [hz, hz2]
    norm_num [floor_one_half]
  · have hsg : sg = true := by
      cases sg
      · simp [pyGtZero, hm] at h
      · rfl
    subst hsg
    have hval : -(decValQ ⟨true, m, e⟩) = (m : ℚ) / 10 ^ e := by
      simp [decValQ, neg_div]
    rw [hval]
    by_cases he : e ≤ 2
    · have hid : (m : ℚ) / 10 ^ e * 100 = ((m * 10 ^ (2 - e) : ℕ) : ℚ) := by
        have hpow : (10 : ℚ) ^ e * 10 ^ (2 - e) = 100 := by
          rw [← pow_add]
          have : e + (2 - e) = 2 := by omega
          rw [this]
          norm_num
        push_cast
        field_simp
        nlinarith [hpow]
      rw [show pyQuantize01HalfUp ⟨true, m, e⟩ = ⟨true, m * 10 ^ (2 - e), 2⟩ from by
        unfold pyQuantize01HalfUp; simp [he]]
      rw [hid, Int.floor_nat_add, floor_one_half]
      simp [decValQ, neg_div]
      norm_num
    · have hden : 0 < 10 ^ (e - 2) := Nat.pos_pow_of_pos _ (by norm_num)
      set den := 10 ^ (e - 2) with hdendef
      have hq : pyQuantize01HalfUp ⟨true, m, e⟩ =
          ⟨true, if den ≤ 2 * (m % den) then m / den + 1 else m / den, 2⟩ := by
        unfold pyQuantize01HalfUp
        simp [he, hdendef]
      have hpowsplit : (10 : ℚ) ^ e = (den : ℚ) * 100 := by
        rw [hdendef]
        push_cast
        rw [show (100 : ℚ) = 10 ^ 2 by norm_num, ← pow_add]
        congr 1
        omega
      have hval2 : (m : ℚ) / 10 ^ e * 100 = (m : ℚ) / den := by
        rw [hpowsplit]
        have hd : (0 : ℚ) < den := by exact_mod_cast hden
        field_simp
        ring
      have hm2 : den * (m / den) + (m % den) = m := Nat.div_add_mod m den
      have hfl := floor_half_div den (m / den) (m % den) hden (Nat.mod_lt m hden)
      rw [hm2] at hfl
      by_cases hc : den ≤ 2 * (m % den)
      · rw [if_pos hc] at hq hfl
        rw [hq, hval2, hfl]
        simp [decValQ, neg_div]
        ring_nf
        norm_cast
      · rw [if_neg hc] at hq hfl
        rw [hq, hval2, hfl]
        simp [decValQ, neg_div]
        ring_nf
        norm_cast

/-! ## The claims -/

/-- C1: for every source adapter, a row whose parsed date is at or before the
cutoff contributes no record (for ErsteBank, compared on successful outcomes,
since its error messages embed the shifting enumerate index), and every
emitted record originates in a row whose date parses to a timestamp strictly
after the cutoff, its date field being that timestamp's ISO calendar date
with the time of day discarded. -/
theorem claim_C1_cutoff_filter (start : DateTime) (flag : Bool) :
    (emittedAfterCutoff (_extract_neat_data start) "Transaction Date" strptimeYmdHMS start
      ∧ cutoffSkip (_extract_neat_data start) "Transaction Date" strptimeYmdHMS start)
    ∧ (emittedAfterCutoff (_extract_airwallex_data start) "Created At" strptimeYmdHMS start
      ∧ cutoffSkip (_extract_airwallex_data start) "Created At" strptimeYmdHMS start)
    ∧ (emittedAfterCutoff (_extract_erste_data start) "Datum izvršenja" (strptimeDMY '.') start
      ∧ cutoffSkipOk (_extract_erste_data start) "Datum izvršenja" (strptimeDMY '.') start)
    ∧ (emittedAfterCutoff (fun rows => _extract_revolut_data start rows flag)
        "Completed Date" strptimeYmdHMS start
      ∧ ∀ c rest st s dt, c "State" = some st → c "Completed Date" = some s →
          strptimeYmdHMS s = some dt → dtLe dt start = true →
          _extract_revolut_data start (c :: rest) flag = _extract_revolut_data start rest flag)
    ∧ (emittedAfterCutoff (fun rows => _extract_starling_data start rows flag)
        "Date" (strptimeDMY '/') start
      ∧ cutoffSkip (fun rows => _extract_starling_data start rows flag)
        "Date" (strptimeDMY '/') start)
    ∧ (emittedAfterCutoff (_extract_wise_data start) "Created on" strptimeYmdHMS start
      ∧ cutoffSkip (_extract_wise_data start) "Created on" strptimeYmdHMS start)
    ∧ (emittedAfterCutoff (_extract_payoneer_data start) "Date" strptimeDbY start
      ∧ cutoffSkip (_extract_payoneer_data start) "Date" strptimeDbY start)
    ∧ (emittedAfterCutoff (_extract_currenxie_data start) "*Date" strptimeMDY start
      ∧ cutoffSkip (_extract_currenxie_data start) "*Date" strptimeMDY start) := by
  refine ⟨⟨?_, ?_⟩, ⟨?_, ?_⟩, ⟨?_, ?_⟩, ⟨?_, ?_⟩, ⟨?_, ?_⟩, ⟨?_, ?_⟩, ⟨?_, ?_⟩, ⟨?_, ?_⟩⟩
  · intro rows recs h r hr
    obtain ⟨j, c, hc, he⟩ := foldRows_ok_mem h r hr
    obtain ⟨s, dt, h1, h2, h3, h4⟩ := neatStep_emit he
    exact ⟨c, hc, s, dt, h1, h2, h3, h4⟩
  · intro c rest s dt h1 h2 h3
    exact constFold_cons_skip _ (neatStep_skip h1 h2 h3)
  · intro rows recs h r hr
    obtain ⟨j, c, hc, he⟩ := foldRows_ok_mem h r hr
    obtain ⟨s, dt, h1, h2, h3, h4⟩ := airwallexStep_emit he
    exact ⟨c, hc, s, dt, h1, h2, h3, h4⟩
  · intro c rest s dt h1 h2 h3
    exact constFold_cons_skip _ (airwallexStep_skip h1 h2 h3)
  · intro rows recs h r hr
    obtain ⟨j, c, hc, he⟩ := foldRows_ok_mem h r hr
    obtain ⟨s, dt, h1, h2, h3, h4⟩ := ersteStep_emit he
    exact ⟨c, hc, s, dt, h1, h2, h3, h4⟩
  · intro c rest s dt recs h1 h2 h3
    constructor
    · intro h
      unfold _extract_erste_data at h ⊢
      rw [foldRows_cons_skip (ersteStep_skip h1 h2 h3)] at h
      exact foldRows_ok_kind (ersteStep_kindEq start) h
    · intro h
      unfold _extract_erste_data at h ⊢
      rw [foldRows_cons_skip (ersteStep_skip h1 h2 h3)]
      exact foldRows_ok_kind (ersteStep_kindEq start) h
  · intro rows recs h r hr
    obtain ⟨j, c, hc, he⟩ := foldRows_ok_mem h r hr
    obtain ⟨s, dt, h1, h2, h3, h4⟩ := revolutStep_emit he
    exact ⟨c, hc, s, dt, h1, h2, h3, h4⟩
  · intro c rest st s dt h1 h2 h3 h4
    unfold _extract_revolut_data
    by_cases hst : st = "COMPLETED"
    · subst hst
      exact constFold_cons_skip _ (revolutStep_skip_date h1 h2 h3 h4)
    · exact constFold_cons_skip _ (revolutStep_skip_state h1 hst)
  · intro rows recs h r hr
    obtain ⟨j, c, hc, he⟩ := foldRows_ok_mem h r hr
    obtain ⟨s, dt, h1, h2, h3, h4, _⟩ := starlingStep_emit he
    exact ⟨c, hc, s, dt, h1, h2, h3, h4⟩
  · intro c rest s dt h1 h2 h3
    exact constFold_cons_skip _ (starlingStep_skip h1 h2 h3)
  · intro rows recs h r hr
    obtain ⟨j, c, hc, he⟩ := foldRows_ok_mem h r hr
    obtain ⟨s, dt, h1, h2, h3, h4⟩ := wiseStep_emit he
    exact ⟨c, hc, s, dt, h1, h2, h3, h4⟩
  · intro c rest s dt h1 h2 h3
    exact constFold_cons_skip _ (wiseStep_skip h1 h2 h3)
  · intro rows recs h r hr
    obtain ⟨j, c, hc, he⟩ := foldRows_ok_mem h r hr
    obtain ⟨s, dt, h1, h2, h3, h4⟩ := payoneerStep_emit he
    exact ⟨c, hc, s, dt, h1, h2, h3, h4⟩
  · intro c rest s dt h1 h2 h3
    exact constFold_cons_skip _ (payoneerStep_skip h1 h2 h3)
  · intro rows recs h r hr
    obtain ⟨j, c, hc, he⟩ := foldRows_ok_mem h r hr
    obtain ⟨s, dt, h1, h2, h3, h4⟩ := currenxieStep_emit he
    exact ⟨c, hc, s, dt, h1, h2, h3, h4⟩
  · intro c rest s dt h1 h2 h3
    exact constFold_cons_skip _ (currenxieStep_skip h1 h2 h3)

/-- Witness for C1: a 2020 Neat row is dropped under a 2021 cutoff, and the
record emitted for a 2021 Revolut row carries its row's ISO calendar date. -/
theorem claim_C1_witness :
    (_extract_neat_data sampleStart [sampleNeatOld] = _extract_neat_data sampleStart [])
    ∧ (∃ c ∈ [sampleRevolutNeg], ∃ s dt, c "Completed Date" = some s ∧
        strptimeYmdHMS s = some dt ∧ dtLe dt sampleStart = false ∧
        (Record.mk "2021-03-15" "12.35" "Cafe nice").date = strftimeYmd dt) :=
  ⟨(claim_C1_cutoff_filter sampleStart false).1.2 sampleNeatOld []
      "2020-05-05 10:00:00" ⟨2020, 5, 5, 10, 0, 0⟩ rfl rfl rfl,
   (claim_C1_cutoff_filter sampleStart true).2.2.2.1.1 [sampleRevolutNeg]
      [⟨"2021-03-15", "12.35", "Cafe nice"⟩] rfl _ (List.mem_singleton.mpr rfl)⟩


/-- C2: in reimbursement mode the Revolut and Starling adapters drop every
row whose amount is strictly positive, and a retained row's amount is the
negated source amount quantized to two decimals with ROUND_HALF_UP; the
comparison agrees with rational positivity, and negate-then-quantize computes
round-half-up of the negated value (`⌊-v*100 + 1/2⌋ / 100`). -/
theorem claim_C2_reimbursement (start : DateTime) :
    (∀ c rest ds dt rawD amtS d,
      c "State" = some "COMPLETED" → c "Completed Date" = some ds →
      strptimeYmdHMS ds = some dt → dtLe dt start = false →
      c "Description" = some rawD → c "Amount" = some amtS → parseDecimal amtS = some d →
      (pyGtZero d = true →
        _extract_revolut_data start (c :: rest) true = _extract_revolut_data start rest true)
      ∧ (pyGtZero d = false →
        _extract_revolut_data start (c :: rest) true =
          Except.map (fun tl => Record.mk (strftimeYmd dt)
            (pyDecStr (pyNeg (pyQuantize01HalfUp d))) (pyReplaceChar rawD ',' "") :: tl)
          (_extract_revolut_data start rest true)))
    ∧ (∀ c rest ds dt cp ref amtS d,
      c "Date" = some ds → strptimeDMY '/' ds = some dt → dtLe dt start = false →
      c "Counter Party" = some cp → c "Reference" = some ref →
      c "Amount (GBP)" = some amtS → parseDecimal amtS = some d →
      (pyGtZero d = true →
        _extract_starling_data start (c :: rest) true = _extract_starling_data start rest true)
      ∧ (pyGtZero d = false →
        _extract_starling_data start (c :: rest) true =
          Except.map (fun tl => Record.mk (strftimeYmd dt)
            (pyDecStr (pyNeg (pyQuantize01HalfUp d)))
            (if pyLower (pyStrip cp) = pyLower (pyStrip ref) then pyStrip cp
              else pyStrip ref ++ " (to: " ++ pyStrip cp ++ ")") :: tl)
          (_extract_starling_data start rest true)))
    ∧ (∀ d, pyGtZero d = true ↔ 0 < decValQ d)
    ∧ (∀ d, pyGtZero d = false →
        decValQ (pyNeg (pyQuantize01HalfUp d)) = ((⌊-(decValQ d) * 100 + 1 / 2⌋ : ℤ) : ℚ) / 100) := by
  refine ⟨?_, ?_, pyGtZero_iff, pyRound_spec⟩
  · intro c rest ds dt rawD amtS d h1 h2 h3 h4 h5 h6 h7
    constructor
    · intro hpos
      exact constFold_cons_skip _ (revolutStep_reimb_drop h1 h2 h3 h4 h5 h6 h7 hpos)
    · intro hpos
      exact constFold_cons_emit _ (revolutStep_reimb_emit h1 h2 h3 h4 h5 h6 h7 hpos)
  · intro c rest ds dt cp ref amtS d h1 h2 h3 h4 h5 h6 h7
    constructor
    · intro hpos
      exact constFold_cons_skip _ (starlingStep_reimb_drop h1 h2 h3 h4 h5 h6 h7 hpos)
    · intro hpos
      exact constFold_cons_emit _ (starlingStep_reimb_emit h1 h2 h3 h4 h5 h6 h7 hpos)

/-- Witness for C2: amount -12.345 is emitted as "12.35", the half-way
boundary -0.125 as "0.13", and a positive 5.00 row is dropped. -/
theorem claim_C2_witness :
    (_extract_revolut_data sampleStart [sampleRevolutNeg] true
      = .ok [⟨"2021-03-15", "12.35", "Cafe nice"⟩])
    ∧ (_extract_starling_data sampleStart [sampleStarlingNeg] true
      = .ok [⟨"2021-03-15", "0.13", "Tesco"⟩])
    ∧ (_extract_revolut_data sampleStart [sampleRevolutPos] true = .ok []) :=
  ⟨(((claim_C2_reimbursement sampleStart).1 sampleRevolutNeg [] "2021-03-15 10:00:00"
      sampleDT "Cafe, nice" "-12.345" ⟨true, 12345, 3⟩
      rfl rfl rfl rfl rfl rfl rfl).2 rfl).trans rfl,
   (((claim_C2_reimbursement sampleStart).2.1 sampleStarlingNeg [] "15/03/2021"
      sampleDT0 " Tesco " "TESCO" "-0.125" ⟨true, 125, 3⟩
      rfl rfl rfl rfl rfl rfl rfl).2 rfl).trans rfl,
   (((claim_C2_reimbursement sampleStart).1 sampleRevolutPos [] "2021-03-15 10:00:00"
      sampleDT "Refund" "5.00" ⟨false, 500, 2⟩
      rfl rfl rfl rfl rfl rfl rfl).1 rfl).trans rfl⟩

/-- C5: the Revolut adapter skips a row whose State differs from "COMPLETED"
without touching its Completed Date, so the row neither raises nor emits. -/
theorem claim_C5_revolut_state_filter (start : DateTime) (flag : Bool) :
    ∀ c rest st, c "State" = some st → st ≠ "COMPLETED" →
      _extract_revolut_data start (c :: rest) flag = _extract_revolut_data start rest flag := by
  intro c rest st h1 h2
  exact constFold_cons_skip _ (revolutStep_skip_state h1 h2)

/-- Witness for C5: a REVERTED row whose completion date does not parse at
all is skipped without error. -/
theorem claim_C5_witness :
    (strptimeYmdHMS "junk" = none)
    ∧ (_extract_revolut_data sampleStart [sampleRevolutReverted] true = .ok []) :=
  ⟨rfl,
   (claim_C5_revolut_state_filter sampleStart true sampleRevolutReverted [] "REVERTED"
      rfl (by decide)).trans rfl⟩


/-- A zero decimal of either sign does not compare strictly greater than zero. -/
theorem pyGtZero_zero (sg : Bool) (e : Nat) : pyGtZero ⟨sg, 0, e⟩ = false := by
  cases sg <;> rfl

/-- Negate-then-quantize of a zero decimal prints as "0.00". -/
theorem pyDecStr_zero (sg : Bool) (e : Nat) :
    pyDecStr (pyNeg (pyQuantize01HalfUp ⟨sg, 0, e⟩)) = "0.00" := by
  rw [pyQuantize_zero]
  cases sg <;> rfl

/-- C3: an ErsteBank row after the cutoff with both amount columns populated
(after continental normalization) aborts extraction with the ValueError
naming the description and row index; with exactly one populated, the
normalized value is the magnitude, unsigned for the deposit column and
minus-prefixed for the payment column. -/
theorem claim_C3_erste_debit_credit (start : DateTime) :
    ∀ c rest ds dt descr u p,
      c "Datum izvršenja" = some ds → strptimeDMY '.' ds = some dt → dtLe dt start = false →
      c "Opis plaæanja, kurs" = some descr → c "Uplate" = some u → c "Isplate" = some p →
      ((continentalNormalize u ≠ "" → continentalNormalize p ≠ "" →
        _extract_erste_data start (c :: rest) = .error (.valueError
          ("Both inbound and outbound transactions for " ++ descr
            ++ " (line " ++ toString (0 : Nat) ++ ")")))
      ∧ (∀ b, c "Primalac" = some b →
          continentalNormalize u ≠ "" → continentalNormalize p = "" →
          ∀ recs, _extract_erste_data start (c :: rest) = .ok recs →
            recs.head? = some (Record.mk (strftimeYmd dt) (continentalNormalize u)
              (if b ≠ "" then descr ++ " from " ++ b else descr)))
      ∧ (∀ b, c "Primalac" = some b →
          continentalNormalize u = "" → continentalNormalize p ≠ "" →
          ∀ recs, _extract_erste_data start (c :: rest) = .ok recs →
            recs.head? = some (Record.mk (strftimeYmd dt) ("-" ++ continentalNormalize p)
              (if b ≠ "" then descr ++ " to " ++ b else descr)))) := by
  intro c rest ds dt descr u p h1 h2 h3 h4 h5 h6
  refine ⟨?_, ?_, ?_⟩
  · intro hnu hnp
    unfold _extract_erste_data
    rw [foldRows_cons_fail (ersteStep_both_fail h1 h2 h3 h4 h5 h6 hnu hnp)]
  · intro b hb hnu hnp recs hok
    have hstep := ersteStep_in_emit (i := 0) h1 h2 h3 h4 h5 h6 hnu hnp hb
    unfold _extract_erste_data at hok
    rw [foldRows_cons_emit hstep] at hok
    obtain ⟨a, _, hy⟩ := exceptMap_eq_ok.mp hok
    subst hy
    rfl
  · intro b hb hnu hnp recs hok
    have hstep := ersteStep_out_emit (i := 0) h1 h2 h3 h4 h5 h6 hnu hb
    unfold _extract_erste_data at hok
    rw [foldRows_cons_emit hstep] at hok
    obtain ⟨a, _, hy⟩ := exceptMap_eq_ok.mp hok
    subst hy
    rfl

/-- Witness for C3: a both-populated row raises, "1.234,56" normalizes to
"1234.56" and is emitted unsigned, and a payment-only row is minus-prefixed. -/
theorem claim_C3_witness :
    (_extract_erste_data sampleStart [sampleErsteBoth]
      = .error (.valueError "Both inbound and outbound transactions for Racun (line 0)"))
    ∧ (continentalNormalize "1.234,56" = "1234.56")
    ∧ (_extract_erste_data sampleStart [sampleErsteIn]
      = .ok [Record.mk "2021-03-15" "1234.56" "Racun from ACME"])
    ∧ (([Record.mk "2021-03-15" "1234.56" "Racun from ACME"] : List Record).head?
      = some (Record.mk "2021-03-15" "1234.56" "Racun from ACME"))
    ∧ (([Record.mk "2021-03-15" "-2.00" "Racun to ACME"] : List Record).head?
      = some (Record.mk "2021-03-15" "-2.00" "Racun to ACME")) :=
  ⟨(claim_C3_erste_debit_credit sampleStart sampleErsteBoth [] "15.03.2021" sampleDT0
      "Racun" "1.234,56" "2,00" rfl rfl rfl rfl rfl rfl).1 (by decide) (by decide),
   rfl,
   rfl,
   (claim_C3_erste_debit_credit sampleStart sampleErsteIn [] "15.03.2021" sampleDT0
      "Racun" "1.234,56" "" rfl rfl rfl rfl rfl rfl).2.1 "ACME" rfl (by decide) rfl _ rfl,
   (claim_C3_erste_debit_credit sampleStart sampleErsteOut [] "15.03.2021" sampleDT0
      "Racun" "" "2,00" rfl rfl rfl rfl rfl rfl).2.2 "ACME" rfl rfl (by decide) _ rfl⟩

/-- C4 (code bug): on a Wise row whose direction tag is neither "IN" nor
"OUT", the adapter aborts, but with `KeyError('direction')` raised while
formatting the intended message — `c["direction"]` instead of
`c["Direction"]` — not with the ValueError the spec describes; the IN/OUT
paths do emit base-plus-fee amounts with the documented descriptions. -/
theorem claim_C4_wise_direction_keyerror :
    (sampleWiseBad "Direction" = some "SIDEWAYS")
    ∧ (sampleWiseBad "direction" = none)
    ∧ (_extract_wise_data sampleStart [sampleWiseBad] = .error (.keyError "direction"))
    ∧ (_extract_wise_data sampleStart [sampleWiseIn]
      = .ok [Record.mk "2021-03-15" "12.35" "Received from ACME"])
    ∧ (_extract_wise_data sampleStart [sampleWiseOut]
      = .ok [Record.mk "2021-03-15" "-10.50" "Sent to Supplies Inc"]) :=
  ⟨rfl, rfl, rfl, rfl, rfl⟩

/-- C6: every record the Starling adapter emits takes its description from
its row's whitespace-stripped counterparty and reference: the counterparty
alone when they match case-insensitively, otherwise
"reference (to: counterparty)". -/
theorem claim_C6_starling_description (start : DateTime) (flag : Bool) :
    ∀ rows recs, _extract_starling_data start rows flag = .ok recs → ∀ r ∈ recs,
      ∃ c ∈ rows, ∃ cp ref, c "Counter Party" = some cp ∧ c "Reference" = some ref ∧
        r.description = (if pyLower (pyStrip cp) = pyLower (pyStrip ref) then pyStrip cp
          else pyStrip ref ++ " (to: " ++ pyStrip cp ++ ")") := by
  intro rows recs h r hr
  obtain ⟨j, c, hc, he⟩ := foldRows_ok_mem h r hr
  obtain ⟨s, dt, h1, h2, h3, h4, cp, ref, hcp, href, hdesc⟩ := starlingStep_emit he
  exact ⟨c, hc, cp, ref, hcp, href, hdesc⟩

/-- Witness for C6: counterparty " Tesco " with reference "TESCO" yields the
description "Tesco". -/
theorem claim_C6_witness :
    ∃ c ∈ [sampleStarlingNeg], ∃ cp ref,
      c "Counter Party" = some cp ∧ c "Reference" = some ref ∧
      (Record.mk "2021-03-15" "0.13" "Tesco").description
        = (if pyLower (pyStrip cp) = pyLower (pyStrip ref) then pyStrip cp
           else pyStrip ref ++ " (to: " ++ pyStrip cp ++ ")") :=
  claim_C6_starling_description sampleStart true [sampleStarlingNeg]
    [Record.mk "2021-03-15" "0.13" "Tesco"] rfl _ (List.mem_singleton.mpr rfl)

/-- C7: the writer serializes fields in the fixed order date, amount,
description; Wave output starts with the header line, FreeAgent output has
none, and an empty record sequence yields a header-only or empty output. -/
theorem claim_C7_writer :
    (CSV_DATE_HEADER ++ "," ++ CSV_AMOUNT_HEADER ++ "," ++ CSV_DESCRIPTION_HEADER
      = "date,amount,description")
    ∧ (∀ content, write_output .WAVE content
      = "date,amount,description" :: content.map recordLine)
    ∧ (∀ content, write_output .FREEAGENT content = content.map recordLine)
    ∧ (∀ r, recordLine r
      = csvQuote r.date ++ "," ++ csvQuote r.amount ++ "," ++ csvQuote r.description)
    ∧ (write_output .WAVE [] = ["date,amount,description"])
    ∧ (write_output .FREEAGENT [] = []) :=
  ⟨rfl, fun _ => rfl, fun _ => rfl, fun _ => rfl, rfl, rfl⟩

/-- C8: the orchestrator rejects, independently of the input rows, any run
selecting Revolut or Starling without the reimbursement flag, and any run
setting the flag with another source or with a target other than Wave. -/
theorem claim_C8_flag_validation :
    ∀ ft tgt flag d rows,
      ((ft = InputSource.REVOLUT ∨ ft = InputSource.STARLING) → flag = false →
        main_core ft tgt flag d rows
          = .error (.cli (.badParameter "Expected reimbursement flag")))
      ∧ (flag = true →
        (¬(ft = InputSource.REVOLUT ∨ ft = InputSource.STARLING) ∨ tgt ≠ OutputSource.WAVE) →
        main_core ft tgt flag d rows
          = .error (.cli (.badParameter "Did not expect reimbursement flag"))) := by
  intro ft tgt flag d rows
  constructor
  · intro h1 h2
    subst h2
    unfold main_core main_validate
    rw [if_pos ⟨h1, by simp⟩]
  · intro h1 h2
    subst h1
    unfold main_core main_validate
    rw [if_neg (by simp), if_pos ⟨rfl, h2⟩]

/-- Witness for C8: Revolut without the flag and Neat with the flag are both
rejected before extraction. -/
theorem claim_C8_witness :
    (main_core .REVOLUT .WAVE false sampleStart []
      = .error (.cli (.badParameter "Expected reimbursement flag")))
    ∧ (main_core .NEAT .WAVE true sampleStart []
      = .error (.cli (.badParameter "Did not expect reimbursement flag"))) :=
  ⟨(claim_C8_flag_validation .REVOLUT .WAVE false sampleStart []).1 (Or.inl rfl) rfl,
   (claim_C8_flag_validation .NEAT .WAVE true sampleStart []).2 rfl (Or.inl (by decide))⟩

/-- C9: an ErsteBank row after the cutoff with both amount columns empty is
not rejected: it is handled as an outbound payment and the emitted amount
string is the bare minus sign "-". -/
theorem claim_C9_erste_empty_both (start : DateTime) :
    ∀ c rest ds dt descr b,
      c "Datum izvršenja" = some ds → strptimeDMY '.' ds = some dt → dtLe dt start = false →
      c "Opis plaæanja, kurs" = some descr → c "Uplate" = some "" → c "Isplate" = some "" →
      c "Primalac" = some b →
      ∀ recs, _extract_erste_data start (c :: rest) = .ok recs →
        recs.head? = some (Record.mk (strftimeYmd dt) "-"
          (if b ≠ "" then descr ++ " to " ++ b else descr)) := by
  intro c rest ds dt descr b h1 h2 h3 h4 h5 h6 h7 recs hok
  have hstep := ersteStep_out_emit (i := 0) h1 h2 h3 h4 h5 h6 rfl h7
  unfold _extract_erste_data at hok
  rw [foldRows_cons_emit hstep] at hok
  obtain ⟨a, _, hy⟩ := exceptMap_eq_ok.mp hok
  subst hy
  rfl

/-- Witness for C9: a row with empty deposit and payment columns yields a
record whose amount is "-". -/
theorem claim_C9_witness :
    (_extract_erste_data sampleStart [sampleErsteEmpty]
      = .ok [Record.mk "2021-03-15" "-" "Racun to ACME"])
    ∧ (([Record.mk "2021-03-15" "-" "Racun to ACME"] : List Record).head?
      = some (Record.mk "2021-03-15" "-" "Racun to ACME")) :=
  ⟨rfl,
   claim_C9_erste_empty_both sampleStart sampleErsteEmpty [] "15.03.2021" sampleDT0
     "Racun" "ACME" rfl rfl rfl rfl rfl rfl rfl _ rfl⟩

/-- Counterexample for C10 as stated: a completed zero-amount Revolut row in
reimbursement mode is emitted with amount string "0.00", not "-0.00". -/
theorem claim_C10_counterexample :
    (_extract_revolut_data sampleStart [sampleRevolutZero] true
      = .ok [Record.mk "2021-03-15" "0.00" "Zero"])
    ∧ "0.00" ≠ "-0.00" :=
  ⟨rfl, by decide⟩

/-- C10 (amended): in reimbursement mode a zero-amount row is not dropped —
only strictly positive amounts are — and it is emitted with amount string
"0.00", since negating a zero Decimal yields positive zero. -/
theorem claim_C10_zero_amount (start : DateTime) :
    (∀ c rest ds dt rawD amtS sg e,
      c "State" = some "COMPLETED" → c "Completed Date" = some ds →
      strptimeYmdHMS ds = some dt → dtLe dt start = false →
      c "Description" = some rawD → c "Amount" = some amtS →
      parseDecimal amtS = some ⟨sg, 0, e⟩ →
      _extract_revolut_data start (c :: rest) true =
        Except.map (fun tl => Record.mk (strftimeYmd dt) "0.00" (pyReplaceChar rawD ',' "") :: tl)
        (_extract_revolut_data start rest true))
    ∧ (∀ c rest ds dt cp ref amtS sg e,
      c "Date" = some ds → strptimeDMY '/' ds = some dt → dtLe dt start = false →
      c "Counter Party" = some cp → c "Reference" = some ref →
      c "Amount (GBP)" = some amtS → parseDecimal amtS = some ⟨sg, 0, e⟩ →
      _extract_starling_data start (c :: rest) true =
        Except.map (fun tl => Record.mk (strftimeYmd dt) "0.00"
          (if pyLower (pyStrip cp) = pyLower (pyStrip ref) then pyStrip cp
           else pyStrip ref ++ " (to: " ++ pyStrip cp ++ ")") :: tl)
        (_extract_starling_data start rest true)) := by
  constructor
  · intro c rest ds dt rawD amtS sg e h1 h2 h3 h4 h5 h6 h7
    have hstep := revolutStep_reimb_emit h1 h2 h3 h4 h5 h6 h7 (pyGtZero_zero sg e)
    rw [pyDecStr_zero] at hstep
    exact constFold_cons_emit _ hstep
  · intro c rest ds dt cp ref amtS sg e h1 h2 h3 h4 h5 h6 h7
    have hstep := starlingStep_reimb_emit h1 h2 h3 h4 h5 h6 h7 (pyGtZero_zero sg e)
    rw [pyDecStr_zero] at hstep
    exact constFold_cons_emit _ hstep

/-- Witness for amended C10: zero-amount Revolut and Starling rows are both
emitted with amount "0.00". -/
theorem claim_C10_witness :
    (_extract_revolut_data sampleStart [sampleRevolutZero] true
      = .ok [Record.mk "2021-03-15" "0.00" "Zero"])
    ∧ (_extract_starling_data sampleStart [sampleStarlingZero] true
      = .ok [Record.mk "2021-03-15" "0.00" "Groceries (to: Tesco)"]) :=
  ⟨((claim_C10_zero_amount sampleStart).1 sampleRevolutZero [] "2021-03-15 10:00:00"
      sampleDT "Zero" "0.00" false 2 rfl rfl rfl rfl rfl rfl rfl).trans rfl,
   ((claim_C10_zero_amount sampleStart).2 sampleStarlingZero [] "15/03/2021"
      sampleDT0 "Tesco" "Groceries" "0.00" false 2 rfl rfl rfl rfl rfl rfl rfl).trans rfl⟩

end NeatToWave
